import Mathlib

/-!
Verification of the scrapebadger-node SDK core: config resolution, error
classification, retry orchestration and cursor pagination, shallowly embedded
from the TypeScript sources (src/internal/config.ts, src/internal/client.ts,
src/internal/pagination.ts, src/client.ts).
-/

namespace ScrapeBadger

/-- JS truthiness of a `string | undefined` value: `undefined` and the empty
string are falsy.  Used by `while (cursor)`, `!!cursor` and `!apiKey` in the
source. -/
def strTruthy : Option String → Bool
  | none => false
  | some s => !(s == "")

/-- Character-list prefix test, building block for `String.prototype.includes`. -/
def charsStartWith : List Char → List Char → Bool
  | _, [] => true
  | [], _ :: _ => false
  | a :: as, b :: bs => a == b && charsStartWith as bs

/-- Character-list substring occurrence test. -/
def charsContain : List Char → List Char → Bool
  | [], pat => charsStartWith [] pat
  | a :: as, pat => charsStartWith (a :: as) pat || charsContain as pat

/-- `haystack.includes(needle)` from JS, on Lean strings. -/
def strIncludes (s pat : String) : Bool :=
  charsContain s.data pat.data

/-- ASCII lowercase of one character, as `toLowerCase` acts on ASCII. -/
def charLower (c : Char) : Char :=
  if 65 ≤ c.toNat ∧ c.toNat ≤ 90 then Char.ofNat (c.toNat + 32) else c

/-- `s.toLowerCase()` of JS restricted to ASCII, where it agrees with the
Unicode mapping on the strings this client compares. -/
def strLower (s : String) : String :=
  String.mk (s.data.map charLower)

/-! ## Config resolver (src/internal/config.ts, src/client.ts) -/

/-- `ResolvedConfig` from src/internal/config.ts. -/
structure ResolvedConfig where
  apiKey : String
  baseUrl : String
  timeout : Nat
  maxRetries : Nat
  retryDelay : Nat
deriving Repr, DecidableEq

/-- `ScrapeBadgerConfig` from src/internal/config.ts: `apiKey` is a required
string, the rest optional. -/
structure ScrapeBadgerConfig where
  apiKey : String
  baseUrl : Option String
  timeout : Option Nat
  maxRetries : Option Nat
  retryDelay : Option Nat
deriving Repr, DecidableEq

/-- The partial configuration accepted by the `ScrapeBadger` constructor
(`Partial<ScrapeBadgerConfig>`): every field optional. -/
structure PartialConfig where
  apiKey : Option String
  baseUrl : Option String
  timeout : Option Nat
  maxRetries : Option Nat
  retryDelay : Option Nat
deriving Repr, DecidableEq

/-- `resolveConfig` from src/internal/config.ts: `if (!config.apiKey) throw`,
then fill defaults with `??`. -/
def resolveConfig (config : ScrapeBadgerConfig) : Except String ResolvedConfig :=
  if config.apiKey = "" then Except.error "API key is required"
  else Except.ok
    { apiKey := config.apiKey
      baseUrl := config.baseUrl.getD "https://api.scrapebadger.com"
      timeout := config.timeout.getD 30000
      maxRetries := config.maxRetries.getD 3
      retryDelay := config.retryDelay.getD 1000 }

/-- The `ScrapeBadger` constructor from src/client.ts:
`const apiKey = config.apiKey ?? getApiKeyFromEnv(); if (!apiKey) throw ...;`
then `resolveConfig({ ...config, apiKey })`.  `env` is the value of the
`SCRAPEBADGER_API_KEY` environment variable. -/
def constructScrapeBadger (config : PartialConfig) (env : Option String) :
    Except String ResolvedConfig :=
  let apiKey := config.apiKey.orElse fun _ => env
  match apiKey with
  | none =>
      Except.error "API key is required. Pass it in the config or set SCRAPEBADGER_API_KEY environment variable."
  | some k =>
      if k = "" then
        Except.error "API key is required. Pass it in the config or set SCRAPEBADGER_API_KEY environment variable."
      else
        resolveConfig
          { apiKey := k, baseUrl := config.baseUrl, timeout := config.timeout
            maxRetries := config.maxRetries, retryDelay := config.retryDelay }

/-! ## Error taxonomy (src/internal/exceptions.ts) -/

/-- The closed error taxonomy of src/internal/exceptions.ts, as a sum type.
`scrapeBadger` is the root `ScrapeBadgerError`; the transport case stands for
non-`ScrapeBadgerError` failures thrown by `fetch` itself. -/
inductive SBError where
  | scrapeBadger (message : String)
  | authentication (message : String)
  | rateLimit (message : String) (retryAfter : Option Nat) (limit : Option Nat)
      (remaining : Option Nat)
  | notFound (message : String)
  | validation (message : String) (errors : Option (List (String × List String)))
  | serverError (message : String) (statusCode : Nat)
  | timeoutError (message : String) (timeoutMs : Nat)
  | insufficientCredits (message : String) (creditsBalance : Option Nat)
  | accountRestricted (message : String) (reason : Option String)
  | transport (message : String)
deriving Repr, DecidableEq

/-- The five immediately-fatal kinds singled out by `executeWithRetry`
(src/internal/client.ts): `AuthenticationError`, `NotFoundError`,
`ValidationError`, `InsufficientCreditsError`, `AccountRestrictedError`. -/
def isFatal : SBError → Bool
  | .authentication _ => true
  | .notFound _ => true
  | .validation _ _ => true
  | .insufficientCredits _ _ => true
  | .accountRestricted _ _ => true
  | _ => false

/-! ## Response classification (src/internal/client.ts, handleResponse) -/

/-- The `ErrorResponse` body shape parsed by `handleResponse`. -/
structure ErrorBody where
  detail : Option String
  message : Option String
  errors : Option (List (String × List String))
  limit : Option Nat
  remaining : Option Nat
  reset_at : Option Nat
  reason : Option String
  credits_balance : Option Nat
deriving Repr, DecidableEq

/-- `errorData.detail ?? errorData.message ?? "Request failed"`. -/
def extractMessage (body : ErrorBody) : String :=
  body.detail.getD (body.message.getD "Request failed")

/-- `handleResponse` from src/internal/client.ts: `response.ok` returns the
parsed body, otherwise the status switch classifies into the taxonomy. -/
def handleResponse (status : Nat) (body : ErrorBody) : Except SBError ErrorBody :=
  if 200 ≤ status ∧ status < 300 then Except.ok body
  else if status = 401 then Except.error (SBError.authentication (extractMessage body))
  else if status = 402 then
    Except.error (SBError.insufficientCredits (extractMessage body) body.credits_balance)
  else if status = 403 then
    if strIncludes (strLower (extractMessage body)) "restricted" then
      Except.error (SBError.accountRestricted (extractMessage body) body.reason)
    else Except.error (SBError.authentication (extractMessage body))
  else if status = 404 then Except.error (SBError.notFound (extractMessage body))
  else if status = 422 then
    Except.error (SBError.validation (extractMessage body) body.errors)
  else if status = 429 then
    Except.error (SBError.rateLimit (extractMessage body) body.reset_at body.limit
      body.remaining)
  else if 500 ≤ status then
    Except.error (SBError.serverError (extractMessage body) status)
  else Except.error (SBError.scrapeBadger (extractMessage body))

/-- Classification as worded by claim C4 (spec side, for comparison with
`handleResponse`): 2xx success; 401 Authentication; 402 InsufficientCredits;
403 AccountRestricted when the extracted message contains "restricted"
case-insensitively, else Authentication; 404 NotFound; 422 Validation; 429
RateLimit; 5xx ServerError; any other non-2xx the generic base error; message
is the body's detail field, else its message field, else "Request failed". -/
def claimClassify (status : Nat) (body : ErrorBody) : Except SBError ErrorBody :=
  if 200 ≤ status ∧ status ≤ 299 then Except.ok body
  else if status = 401 then
    Except.error (SBError.authentication (body.detail.getD (body.message.getD "Request failed")))
  else if status = 402 then
    Except.error (SBError.insufficientCredits
      (body.detail.getD (body.message.getD "Request failed")) body.credits_balance)
  else if status = 403 then
    if strIncludes (strLower (body.detail.getD (body.message.getD "Request failed"))) "restricted" then
      Except.error (SBError.accountRestricted
        (body.detail.getD (body.message.getD "Request failed")) body.reason)
    else
      Except.error (SBError.authentication
        (body.detail.getD (body.message.getD "Request failed")))
  else if status = 404 then
    Except.error (SBError.notFound (body.detail.getD (body.message.getD "Request failed")))
  else if status = 422 then
    Except.error (SBError.validation
      (body.detail.getD (body.message.getD "Request failed")) body.errors)
  else if status = 429 then
    Except.error (SBError.rateLimit
      (body.detail.getD (body.message.getD "Request failed")) body.reset_at body.limit
      body.remaining)
  else if 500 ≤ status ∧ status ≤ 599 then
    Except.error (SBError.serverError
      (body.detail.getD (body.message.getD "Request failed")) status)
  else
    Except.error (SBError.scrapeBadger
      (body.detail.getD (body.message.getD "Request failed")))

/-! ## Header construction (src/internal/client.ts, request) -/

/-- The header object `{ "Content-Type": ..., Accept: ..., "X-API-Key": ...,
"User-Agent": ..., ...headers }` from `BaseClient.request`, as a lookup
function.  JS object spread: a key supplied in `headers` (the caller's
overrides) wins over the defaults, for every key. -/
def requestHeaders (apiKey : String) (overrides : String → Option String) :
    String → Option String :=
  fun k =>
    match overrides k with
    | some v => some v
    | none =>
        if k = "Content-Type" then some "application/json"
        else if k = "Accept" then some "application/json"
        else if k = "X-API-Key" then some apiKey
        else if k = "User-Agent" then some "scrapebadger-node/0.1.0"
        else none

/-- A concrete caller-override map setting `Content-Type`, for claim C5. -/
def c5Overrides : String → Option String :=
  fun k => if k = "Content-Type" then some "text/plain" else none

/-- A concrete caller-override map setting only `Accept`, for claim C5. -/
def c5AcceptOverrides : String → Option String :=
  fun k => if k = "Accept" then some "text/csv" else none

/-! ## Retry engine (src/internal/client.ts, executeWithRetry) -/

/-- One attempt's outcome: `fetchWithTimeout` + `handleResponse` either
return a value or throw an error. -/
inductive Attempt (α : Type) where
  | success (value : α)
  | failure (e : SBError)
deriving Repr, DecidableEq

/-- Whether an attempt threw. -/
def isFailure : Attempt α → Bool
  | .failure _ => true
  | .success _ => false

/-- The error of a failed attempt (`lastError`); arbitrary on success. -/
def errOf : Attempt α → SBError
  | .failure e => e
  | .success _ => SBError.scrapeBadger "Request failed after retries"

/-- The delay slept after a failed, non-final, non-fatal attempt
(src/internal/client.ts): `retryDelay * 2^attempt`, except that a
`RateLimitError` with truthy `retryAfter` whose
`(retryAfter - Date.now()/1000) * 1000` lies strictly between 0 and 60000 ms
sleeps that server-derived amount instead.  `nowMs` is `Date.now()`. -/
def chosenDelay (cfg : ResolvedConfig) (attempt : Nat) (nowMs : Nat) (e : SBError) : Nat :=
  let expDelay := cfg.retryDelay * 2 ^ attempt
  match e with
  | SBError.rateLimit _ retryAfter _ _ =>
      match retryAfter with
      | some ra =>
          if ra ≠ 0 then
            let serverDelay : Int := (ra : Int) * 1000 - (nowMs : Int)
            if 0 < serverDelay ∧ serverDelay < 60000 then serverDelay.toNat else expDelay
          else expDelay
      | none => expDelay
  | _ => expDelay

/-- Whether the rate-limit override path (`continue` after sleeping the
server-derived delay) fires for this error at this clock reading. -/
def overrideApplies (nowMs : Nat) : SBError → Bool
  | SBError.rateLimit _ (some ra) _ _ =>
      ra != 0 &&
        decide (0 < (ra : Int) * 1000 - (nowMs : Int) ∧
          (ra : Int) * 1000 - (nowMs : Int) < 60000)
  | _ => false

/-- The delay rule as worded by claim C3 (spec side, for comparison):
`serverDelay = resetTimestamp - now`; when `0 < serverDelay < 60s` sleep it,
otherwise (reset absent, or serverDelay zero/negative/at least 60s) sleep the
exponential backoff value.  Expressed in milliseconds. -/
def claimRateLimitDelay (cfg : ResolvedConfig) (attempt : Nat) (nowMs : Nat)
    (reset : Option Nat) : Nat :=
  match reset with
  | none => cfg.retryDelay * 2 ^ attempt
  | some r =>
      let serverDelay : Int := (r : Int) * 1000 - (nowMs : Int)
      if 0 < serverDelay ∧ serverDelay < 60000 then serverDelay.toNat
      else cfg.retryDelay * 2 ^ attempt

/-- The retry loop of `executeWithRetry`, instrumented: returns the final
result, the number of attempts made, and the list of sleeps performed.
`outcome j` is what attempt `j` produces, `now j` is `Date.now()` at attempt
`j`'s delay computation.  The fuel argument counts the remaining allowed
attempts; the fuel-0 arm is the defensive `throw lastError ?? new
ScrapeBadgerError(...)` fallback, unreachable from `executeWithRetry`. -/
def runRetry (cfg : ResolvedConfig) (outcome : Nat → Attempt α) (now : Nat → Nat) :
    Nat → Nat → Except SBError α × Nat × List Nat
  | _, 0 => (Except.error (SBError.scrapeBadger "Request failed after retries"), 0, [])
  | attempt, rem + 1 =>
      match outcome attempt with
      | Attempt.success v => (Except.ok v, 1, [])
      | Attempt.failure e =>
          if isFatal e then (Except.error e, 1, [])
          else if rem = 0 then (Except.error e, 1, [])
          else
            let d := chosenDelay cfg attempt (now attempt) e
            let r := runRetry cfg outcome now (attempt + 1) rem
            (r.1, r.2.1 + 1, d :: r.2.2)

/-- `executeWithRetry`: the loop `for (attempt = 0; attempt <= maxRetries; ...)`. -/
def executeWithRetry (cfg : ResolvedConfig) (outcome : Nat → Attempt α) (now : Nat → Nat) :
    Except SBError α × Nat × List Nat :=
  runRetry cfg outcome now 0 (cfg.maxRetries + 1)

/-! ## Pagination (src/internal/pagination.ts) -/

/-- `PaginatedResponse<T>`. -/
structure PaginatedResponse (α : Type) where
  data : List α
  nextCursor : Option String
  hasMore : Bool
deriving Repr, DecidableEq

/-- `createPaginatedResponse(data, cursor?)`: `hasMore` is `!!cursor`; an
omitted cursor is `none`. -/
def createPaginatedResponse (data : List α) (cursor : Option String) :
    PaginatedResponse α :=
  { data := data, nextCursor := cursor, hasMore := strTruthy cursor }

/-- `maxItems !== undefined && totalYielded >= maxItems`. -/
def stopAfter (maxItems : Option Nat) (total : Nat) : Bool :=
  match maxItems with
  | some m => m ≤ total
  | none => false

/-- The inner `for (const item of response.data)` loop of `paginate`: returns
the items yielded from this page, the updated `totalYielded`, and whether the
`return` inside the loop fired (cap reached). -/
def yieldPage (maxItems : Option Nat) : Nat → List α → List α × Nat × Bool
  | total, [] => ([], total, false)
  | total, x :: xs =>
      if stopAfter maxItems (total + 1) then ([x], total + 1, true)
      else
        let r := yieldPage maxItems (total + 1) xs
        (x :: r.1, r.2.1, r.2.2)

/-- The `do ... while (cursor)` loop of `paginate`, fuel-bounded: returns the
yielded items and the number of `fetchPage` calls, or `none` when the fuel is
insufficient (the source loop can genuinely diverge on an infinite cursor
chain). -/
def paginateLoop (fetchPage : Option String → PaginatedResponse α)
    (maxItems : Option Nat) : Option String → Nat → Nat → Option (List α × Nat)
  | _, _, 0 => none
  | cursor, total, fuel + 1 =>
      let page := fetchPage cursor
      let r := yieldPage maxItems total page.data
      if r.2.2 then some (r.1, 1)
      else if strTruthy page.nextCursor then
        match paginateLoop fetchPage maxItems page.nextCursor r.2.1 fuel with
        | none => none
        | some pr => some (r.1 ++ pr.1, pr.2 + 1)
      else some (r.1, 1)

/-- `paginate(fetchPage, { maxItems })`: cursor starts absent, `totalYielded`
starts at 0. -/
def paginate (fetchPage : Option String → PaginatedResponse α)
    (maxItems : Option Nat) (fuel : Nat) : Option (List α × Nat) :=
  paginateLoop fetchPage maxItems none 0 fuel

/-- The finite cursor chain reached by `paginate` from cursor `c`: the pages
fetched in order, following `nextCursor` while it is truthy. -/
inductive Chain (fetchPage : Option String → PaginatedResponse α) :
    Option String → List (List α) → Prop where
  | last (c : Option String) :
      strTruthy (fetchPage c).nextCursor = false →
      Chain fetchPage c [(fetchPage c).data]
  | step (c : Option String) (rest : List (List α)) :
      strTruthy (fetchPage c).nextCursor = true →
      Chain fetchPage (fetchPage c).nextCursor rest →
      Chain fetchPage c ((fetchPage c).data :: rest)

/-- Number of `fetchPage` calls `paginate` makes on a cursor chain of the
given page sizes under an item cap of `r` remaining items (for `1 ≤ r`). -/
def callsFor (r : Nat) : List (List α) → Nat
  | [] => 0
  | [_] => 1
  | p :: q :: rest => if r ≤ p.length then 1 else 1 + callsFor (r - p.length) (q :: rest)

/-- Three-page fetcher with page sizes [2,2,1], for claim C6. -/
def c6Fetch : Option String → PaginatedResponse Nat
  | none => { data := [1, 2], nextCursor := some "c2", hasMore := true }
  | some s =>
      if s = "c2" then { data := [3, 4], nextCursor := some "c3", hasMore := true }
      else if s = "c3" then { data := [5], nextCursor := none, hasMore := false }
      else { data := [], nextCursor := none, hasMore := false }

/-- A fetcher whose first page carries the empty string as `nextCursor`,
for claim C6's counterexample. -/
def c6EmptyCursorFetch : Option String → PaginatedResponse Nat :=
  fun _ => { data := [0], nextCursor := some "", hasMore := true }

/-- Two 3-item pages (a third page exists behind "p3" but is empty), for
claim C7. -/
def c7Fetch : Option String → PaginatedResponse Nat
  | none => { data := [1, 2, 3], nextCursor := some "p2", hasMore := true }
  | some s =>
      if s = "p2" then { data := [4, 5, 6], nextCursor := some "p3", hasMore := true }
      else { data := [], nextCursor := none, hasMore := false }

/-- A single-page fetcher with one item, for claim C7's counterexample. -/
def c7SingleFetch : Option String → PaginatedResponse Nat :=
  fun _ => { data := [7], nextCursor := none, hasMore := false }

/-- Single page [1,2] whose `nextCursor` is the empty string, for claim C10. -/
def c10EmptyFetch : Option String → PaginatedResponse Nat :=
  fun _ => { data := [1, 2], nextCursor := some "", hasMore := false }

/-- Single page [1,2] with absent `nextCursor`, for claim C10. -/
def c10NoneFetch : Option String → PaginatedResponse Nat :=
  fun _ => { data := [1, 2], nextCursor := none, hasMore := false }

/-- Concrete 403 body "Account restricted: policy violation", for claim C4. -/
def c4Body : ErrorBody :=
  { detail := some "Account restricted: policy violation", message := none
    errors := none, limit := none, remaining := none, reset_at := none
    reason := some "policy violation", credits_balance := none }

/-- A resolved configuration with the static defaults, for witnesses. -/
def defaultCfg : ResolvedConfig :=
  { apiKey := "key", baseUrl := "https://api.scrapebadger.com", timeout := 30000
    maxRetries := 3, retryDelay := 1000 }

/-- Decidable equality on results, to let witnesses evaluate by decide. -/
instance {ε α : Type} [DecidableEq ε] [DecidableEq α] : DecidableEq (Except ε α)
  | Except.error x, Except.error y =>
      if h : x = y then isTrue (by rw [h]) else isFalse (by intro hc; cases hc; exact h rfl)
  | Except.error _, Except.ok _ => isFalse (by intro hc; cases hc)
  | Except.ok _, Except.error _ => isFalse (by intro hc; cases hc)
  | Except.ok x, Except.ok y =>
      if h : x = y then isTrue (by rw [h]) else isFalse (by intro hc; cases hc; exact h rfl)

/-- Config with maxRetries = 1, for claim C2's counterexample. -/
def c2Cfg : ResolvedConfig :=
  { apiKey := "key", baseUrl := "https://api.scrapebadger.com", timeout := 30000
    maxRetries := 1, retryDelay := 1000 }

/-- An endpoint that always reports a rate limit resetting 10 seconds after
the epoch, for claim C2's counterexample. -/
def c2RateLimitOutcome : Nat → Attempt Nat :=
  fun _ => Attempt.failure (SBError.rateLimit "Rate limit exceeded." (some 10) none none)

/-- An endpoint that always returns HTTP 503, for claim C2's witness. -/
def c2ServerErrorOutcome : Nat → Attempt Nat :=
  fun _ => Attempt.failure (SBError.serverError "Internal server error." 503)

/-- Config with maxRetries = 2, for claim C2's witness. -/
def c2WitnessCfg : ResolvedConfig :=
  { apiKey := "key", baseUrl := "https://api.scrapebadger.com", timeout := 30000
    maxRetries := 2, retryDelay := 1000 }

/-- An endpoint that always reports a rate limit resetting 10 seconds after
the epoch, for claim C3's witness. -/
def c3Outcome : Nat → Attempt Nat :=
  fun _ => Attempt.failure (SBError.rateLimit "Rate limit exceeded." (some 10) none none)

/-! ## Theorems -/

/-- A truthy cursor is exactly a supplied, nonempty one. -/
theorem strTruthy_eq_true_iff (c : Option String) :
    strTruthy c = true ↔ ∃ s, c = some s ∧ s ≠ "" := by
  cases c with
  | none => simp [strTruthy]
  | some s => simp [strTruthy]

/-- C1: for a request whose (first) response is classified as Authentication,
NotFound, Validation, InsufficientCredits or AccountRestricted, the engine
propagates that error immediately with no retry: exactly 1 attempt and no
sleeps, regardless of the configured maxRetries. -/
theorem c1_fatal_no_retry (cfg : ResolvedConfig) (outcome : Nat → Attempt α)
    (now : Nat → Nat) (e : SBError)
    (h0 : outcome 0 = Attempt.failure e) (hf : isFatal e = true) :
    executeWithRetry cfg outcome now = (Except.error e, 1, []) := by
  unfold executeWithRetry
  simp [runRetry, h0, hf]

/-- C1 witness: a NotFound first response at maxRetries = 3 makes one attempt. -/
theorem c1_fatal_no_retry_witness :
    executeWithRetry defaultCfg
      (fun _ => (Attempt.failure (SBError.notFound "Resource not found.") : Attempt Nat))
      (fun _ => 0) =
      (Except.error (SBError.notFound "Resource not found."), 1, []) :=
  c1_fatal_no_retry defaultCfg _ _ _ rfl rfl

/-- C5 counterexample: the claim says the caller cannot override the content
negotiation headers, but the spread `...headers` comes after the defaults, so
a caller-supplied Content-Type wins. -/
theorem c5_content_type_override_counterexample :
    requestHeaders "key" c5Overrides "Content-Type" = some "text/plain" ∧
    some "text/plain" ≠ some "application/json" := by
  constructor
  · rfl
  · decide

/-- C5 (amended): outgoing headers are the defaults (content-type, accept,
credential header, user-agent) merged with caller overrides; the credential
header key is always present; caller overrides win for every header,
including Content-Type and Accept; non-overridden defaults survive and keys
outside both are absent. -/
theorem c5_header_merge (apiKey : String) (overrides : String → Option String) :
    (∃ v, requestHeaders apiKey overrides "X-API-Key" = some v) ∧
    (∀ k v, overrides k = some v → requestHeaders apiKey overrides k = some v) ∧
    (overrides "Content-Type" = none →
      requestHeaders apiKey overrides "Content-Type" = some "application/json") ∧
    (overrides "Accept" = none →
      requestHeaders apiKey overrides "Accept" = some "application/json") ∧
    (overrides "X-API-Key" = none →
      requestHeaders apiKey overrides "X-API-Key" = some apiKey) ∧
    (overrides "User-Agent" = none →
      requestHeaders apiKey overrides "User-Agent" = some "scrapebadger-node/0.1.0") ∧
    (∀ k, overrides k = none → k ≠ "Content-Type" → k ≠ "Accept" → k ≠ "X-API-Key" →
      k ≠ "User-Agent" → requestHeaders apiKey overrides k = none) := by
  refine ⟨?_, ?_, ?_, ?_, ?_, ?_, ?_⟩
  · cases h : overrides "X-API-Key" with
    | none => exact ⟨apiKey, by simp [requestHeaders, h]⟩
    | some v => exact ⟨v, by simp [requestHeaders, h]⟩
  · intro k v h
    simp [requestHeaders, h]
  · intro h
    simp [requestHeaders, h]
  · intro h
    simp [requestHeaders, h]
  · intro h
    simp [requestHeaders, h]
  · intro h
    simp [requestHeaders, h]
  · intro k hk h1 h2 h3 h4
    simp [requestHeaders, hk, h1, h2, h3, h4]

/-- C5 witness: with an override of only Accept, the caller's Accept wins
while the credential header keeps its default. -/
theorem c5_header_merge_witness :
    requestHeaders "key" c5AcceptOverrides "Accept" = some "text/csv" ∧
    requestHeaders "key" c5AcceptOverrides "X-API-Key" = some "key" := by
  refine ⟨(c5_header_merge "key" c5AcceptOverrides).2.1 "Accept" "text/csv" (by decide), ?_⟩
  exact (c5_header_merge "key" c5AcceptOverrides).2.2.2.2.1 (by decide)

/-- C8 counterexample: a supplied empty-string cursor gives hasMore = false
even though nextCursor is present, contradicting hasMore == (nextCursor is
present). -/
theorem c8_empty_cursor_counterexample :
    (createPaginatedResponse ([0] : List Nat) (some "")).hasMore = false ∧
    (createPaginatedResponse ([0] : List Nat) (some "")).nextCursor.isSome = true := by
  constructor <;> rfl

/-- C8 (amended): the constructor copies data and cursor, and hasMore is
derived at construction as true iff a nonempty cursor was supplied; in
particular no cursor gives hasMore = false and cursor "c" gives true. -/
theorem c8_hasMore_invariant (items : List Nat) (c : Option String) :
    (createPaginatedResponse items c).data = items ∧
    (createPaginatedResponse items c).nextCursor = c ∧
    ((createPaginatedResponse items c).hasMore = true ↔ ∃ s, c = some s ∧ s ≠ "") ∧
    (createPaginatedResponse ([] : List Nat) none).hasMore = false ∧
    (createPaginatedResponse ([0] : List Nat) (some "c")).hasMore = true :=
  ⟨rfl, rfl, strTruthy_eq_true_iff c, rfl, rfl⟩

/-- C9 counterexample: with an explicit empty-string apiKey together with a
valid environment credential, construction fails, although a credential is
present (the explicit empty string wins the nullish coalescing and then fails
the truthiness check). -/
theorem c9_empty_apikey_counterexample :
    constructScrapeBadger
      { apiKey := some "", baseUrl := none, timeout := none, maxRetries := none,
        retryDelay := none } (some "valid-key") =
      Except.error "API key is required. Pass it in the config or set SCRAPEBADGER_API_KEY environment variable." := by
  rfl

/-- C9 (amended): the constructor selects the credential by nullish
coalescing (an explicit credential wins, even when empty); it fails with the
missing-credential error exactly when the selected credential is absent or
empty; otherwise it resolves each remaining field independently to its
supplied value or static default. -/
theorem c9_construct_config (config : PartialConfig) (env : Option String) :
    (config.apiKey = none → env = none →
      constructScrapeBadger config env =
        Except.error "API key is required. Pass it in the config or set SCRAPEBADGER_API_KEY environment variable.") ∧
    (config.apiKey = some "" →
      constructScrapeBadger config env =
        Except.error "API key is required. Pass it in the config or set SCRAPEBADGER_API_KEY environment variable.") ∧
    (config.apiKey = none → env = some "" →
      constructScrapeBadger config env =
        Except.error "API key is required. Pass it in the config or set SCRAPEBADGER_API_KEY environment variable.") ∧
    (∀ k, config.apiKey = some k → k ≠ "" →
      constructScrapeBadger config env =
        Except.ok { apiKey := k,
                    baseUrl := config.baseUrl.getD "https://api.scrapebadger.com",
                    timeout := config.timeout.getD 30000,
                    maxRetries := config.maxRetries.getD 3,
                    retryDelay := config.retryDelay.getD 1000 }) ∧
    (∀ k, config.apiKey = none → env = some k → k ≠ "" →
      constructScrapeBadger config env =
        Except.ok { apiKey := k,
                    baseUrl := config.baseUrl.getD "https://api.scrapebadger.com",
                    timeout := config.timeout.getD 30000,
                    maxRetries := config.maxRetries.getD 3,
                    retryDelay := config.retryDelay.getD 1000 }) := by
  refine ⟨?_, ?_, ?_, ?_, ?_⟩
  · intro h1 h2
    simp [constructScrapeBadger, h1, h2, Option.orElse]
  · intro h1
    simp [constructScrapeBadger, h1, Option.orElse]
  · intro h1 h2
    simp [constructScrapeBadger, h1, h2, Option.orElse]
  · intro k h1 h2
    simp [constructScrapeBadger, resolveConfig, h1, h2, Option.orElse]
  · intro k h1 h2 h3
    simp [constructScrapeBadger, resolveConfig, h1, h2, h3, Option.orElse]

/-- C9 witness: explicit key with a timeout override resolves the other
fields to their defaults. -/
theorem c9_construct_config_witness :
    constructScrapeBadger
      { apiKey := some "mykey", baseUrl := none, timeout := some 60000,
        maxRetries := none, retryDelay := none } none =
      Except.ok { apiKey := "mykey",
                  baseUrl := "https://api.scrapebadger.com",
                  timeout := 60000, maxRetries := 3, retryDelay := 1000 } :=
  (c9_construct_config
    { apiKey := some "mykey", baseUrl := none, timeout := some 60000,
      maxRetries := none, retryDelay := none } none).2.2.2.1 "mykey" rfl (by decide)

/-- C10: an empty-string cursor is treated as absent at the pagination
interface: createPaginatedResponse items "" has hasMore = false with
nextCursor = some ""; and paginate, after a page whose nextCursor is "",
stops with exactly one fetchPage call, exactly as with an absent cursor. -/
theorem c10_empty_cursor_as_absent :
    (∀ items : List Nat,
      (createPaginatedResponse items (some "")).hasMore = false ∧
      (createPaginatedResponse items (some "")).nextCursor = some "") ∧
    ∀ (page : List Nat) (m : Option Nat) (fuel : Nat)
      (f g : Option String → PaginatedResponse Nat),
      (f none).data = page → (f none).nextCursor = some "" →
      (g none).data = page → (g none).nextCursor = none →
      1 ≤ fuel →
      paginate f m fuel = paginate g m fuel ∧
      ∃ items, paginate f m fuel = some (items, 1) := by
  constructor
  · intro items
    exact ⟨rfl, rfl⟩
  · intro page m fuel f g hfd hfc hgd hgc hfuel
    obtain ⟨k, rfl⟩ : ∃ k, fuel = k + 1 := ⟨fuel - 1, by omega⟩
    constructor
    · simp [paginate, paginateLoop, hfd, hfc, hgd, hgc, strTruthy]
    · exact ⟨(yieldPage m 0 page).1, by simp [paginate, paginateLoop, hfd, hfc, strTruthy]⟩

/-- C10 witness: concrete single page [1,2] with cursor "" behaves as with an
absent cursor, in one fetch call. -/
theorem c10_empty_cursor_witness :
    paginate c10EmptyFetch none 1 = paginate c10NoneFetch none 1 ∧
    (∃ items, paginate c10EmptyFetch none 1 = some (items, 1)) ∧
    (createPaginatedResponse ([5] : List Nat) (some "")).hasMore = false := by
  refine ⟨?_, ?_, (c10_empty_cursor_as_absent.1 [5]).1⟩
  · exact (c10_empty_cursor_as_absent.2 [1, 2] none 1 c10EmptyFetch c10NoneFetch
      rfl rfl rfl rfl (by decide)).1
  · exact (c10_empty_cursor_as_absent.2 [1, 2] none 1 c10EmptyFetch c10NoneFetch
      rfl rfl rfl rfl (by decide)).2

/-- Without a cap the inner loop yields the whole page and never fires the
early return. -/
theorem yieldPage_none_eq (xs : List α) :
    ∀ t, yieldPage none t xs = (xs, t + xs.length, false) := by
  induction xs with
  | nil => intro t; simp [yieldPage]
  | cons x xs ih =>
    intro t
    simp [yieldPage, stopAfter, ih]
    omega

/-- With cap m and t < m already yielded, a page at least as large as the
remaining budget yields exactly the remaining budget and fires the early
return. -/
theorem yieldPage_some_early (m : Nat) (xs : List α) :
    ∀ t, t < m → m - t ≤ xs.length →
      yieldPage (some m) t xs = (xs.take (m - t), t + (m - t), true) := by
  induction xs with
  | nil =>
    intro t ht hle
    exfalso
    simp at hle
    omega
  | cons x xs ih =>
    intro t ht hle
    have hle' : m - t ≤ xs.length + 1 := by simpa using hle
    by_cases hstop : m ≤ t + 1
    · have hm : m - t = 1 := by omega
      have ht1 : (x :: xs).take 1 = [x] := rfl
      simp [yieldPage, stopAfter, hstop, hm, ht1]
    · have h1 : m - t = (m - (t + 1)) + 1 := by omega
      have hrec := ih (t + 1) (by omega) (by omega)
      simp [yieldPage, stopAfter, hstop, hrec, h1, List.take_succ_cons]
      omega

/-- With cap m and t < m already yielded, a page smaller than the remaining
budget yields all of itself without firing the early return. -/
theorem yieldPage_some_all (m : Nat) (xs : List α) :
    ∀ t, t < m → xs.length < m - t →
      yieldPage (some m) t xs = (xs, t + xs.length, false) := by
  induction xs with
  | nil => intro t ht hlt; simp [yieldPage]
  | cons x xs ih =>
    intro t ht hlt
    have hlt' : xs.length + 1 < m - t := by simpa using hlt
    have hstop : ¬ (m ≤ t + 1) := by omega
    have hrec := ih (t + 1) (by omega) (by omega)
    simp [yieldPage, stopAfter, hstop, hrec]
    omega

/-- Cursor chains are nonempty. -/
theorem Chain.ne_nil {fetchPage : Option String → PaginatedResponse α}
    {c : Option String} {pages : List (List α)} (h : Chain fetchPage c pages) :
    pages ≠ [] := by
  cases h <;> simp

/-- The uncapped loop on a finite cursor chain yields every page's items in
order and makes exactly one fetch call per page. -/
theorem paginateLoop_chain_none {fetchPage : Option String → PaginatedResponse α}
    {c : Option String} {pages : List (List α)} (h : Chain fetchPage c pages) :
    ∀ fuel t, pages.length ≤ fuel →
      paginateLoop fetchPage none c t fuel = some (pages.join, pages.length) := by
  induction h with
  | last c hstop =>
    intro fuel t hfuel
    obtain ⟨f, rfl⟩ : ∃ f, fuel = f + 1 := ⟨fuel - 1, by simp at hfuel; omega⟩
    simp [paginateLoop, yieldPage_none_eq, hstop]
  | step c rest hnext hrest ih =>
    intro fuel t hfuel
    obtain ⟨f, rfl⟩ : ∃ f, fuel = f + 1 := ⟨fuel - 1, by simp at hfuel; omega⟩
    have hrec := ih f (t + (fetchPage c).data.length) (by simp at hfuel; omega)
    simp [paginateLoop, yieldPage_none_eq, hnext, hrec]

/-- C6 (amended): for every page-fetch function, with no item cap, paginate
starts from the absent cursor, follows each page's nextCursor, yields every
item of every page of the cursor chain in original order, calls the fetcher
exactly once per page, and terminates exactly when a page's nextCursor is
absent or empty. -/
theorem c6_paginate_all_pages {fetchPage : Option String → PaginatedResponse α}
    {pages : List (List α)} (h : Chain fetchPage none pages) (fuel : Nat)
    (hfuel : pages.length ≤ fuel) :
    paginate fetchPage none fuel = some (pages.join, pages.length) :=
  paginateLoop_chain_none h fuel 0 hfuel

/-- C6 counterexample: a page whose nextCursor is the empty string (present,
not absent) also terminates the loop after a single fetch call, so the loop
does not terminate exactly when nextCursor is absent. -/
theorem c6_empty_cursor_terminates_counterexample :
    paginate c6EmptyCursorFetch none 5 = some ([0], 1) ∧
    (c6EmptyCursorFetch none).nextCursor ≠ none := by
  constructor
  · rfl
  · decide

/-- C6 witness: three pages of sizes [2,2,1] yield the 5 items in order with
exactly 3 fetch calls. -/
theorem c6_paginate_all_pages_witness :
    Chain c6Fetch none [[1, 2], [3, 4], [5]] ∧
    paginate c6Fetch none 3 = some ([1, 2, 3, 4, 5], 3) := by
  have hch : Chain c6Fetch none [[1, 2], [3, 4], [5]] := by
    refine Chain.step none [[3, 4], [5]] (by decide) ?_
    refine Chain.step (some "c2") [[5]] (by decide) ?_
    exact Chain.last (some "c3") (by decide)
  exact ⟨hch, c6_paginate_all_pages hch 3 (by decide)⟩

/-- The capped loop on a finite cursor chain yields exactly the remaining
budget of items (or everything if fewer) and fetches only the pages needed. -/
theorem paginateLoop_chain_some {fetchPage : Option String → PaginatedResponse α}
    {c : Option String} {pages : List (List α)} (h : Chain fetchPage c pages) (m : Nat) :
    ∀ fuel t, t < m → pages.length ≤ fuel →
      paginateLoop fetchPage (some m) c t fuel =
        some ((pages.join).take (m - t), callsFor (m - t) pages) := by
  induction h with
  | last c hstop =>
    intro fuel t ht hfuel
    obtain ⟨f, rfl⟩ : ∃ f, fuel = f + 1 := ⟨fuel - 1, by simp at hfuel; omega⟩
    by_cases hbig : m - t ≤ (fetchPage c).data.length
    · have hy := yieldPage_some_early m (fetchPage c).data t ht hbig
      simp [paginateLoop, hy, callsFor]
    · have hy := yieldPage_some_all m (fetchPage c).data t ht (by omega)
      have htk : ((fetchPage c).data).take (m - t) = (fetchPage c).data :=
        List.take_of_length_le (by omega)
      simp [paginateLoop, hy, hstop, callsFor, htk]
  | step c rest hnext hrest ih =>
    intro fuel t ht hfuel
    obtain ⟨f, rfl⟩ : ∃ f, fuel = f + 1 := ⟨fuel - 1, by simp at hfuel; omega⟩
    obtain ⟨q, rest', rfl⟩ : ∃ q rest', rest = q :: rest' := by
      cases hrest <;> exact ⟨_, _, rfl⟩
    by_cases hbig : m - t ≤ (fetchPage c).data.length
    · have hy := yieldPage_some_early m (fetchPage c).data t ht hbig
      simp [paginateLoop, hy, callsFor, hbig, List.take_append_eq_append_take,
        Nat.sub_eq_zero_of_le hbig]
    · have hlen : (fetchPage c).data.length < m - t := by omega
      have hy := yieldPage_some_all m (fetchPage c).data t ht hlen
      have hsub : m - (t + (fetchPage c).data.length) =
          m - t - (fetchPage c).data.length := by omega
      have hrec := ih f (t + (fetchPage c).data.length) (by omega)
        (by simp at hfuel ⊢; omega)
      simp [paginateLoop, hy, hnext, hrec, callsFor, hbig, hsub,
        List.take_append_eq_append_take, List.take_of_length_le (le_of_lt hlen)]
      omega

/-- C7 counterexample: with caller-supplied maxItems = 0 over a nonempty
page, paginate yields 1 item, not min(0, total) = 0, because the cap is
checked only after each yield. -/
theorem c7_maxitems_zero_counterexample :
    paginate c7SingleFetch (some 0) 5 = some ([7], 1) ∧ (1 : Nat) ≠ min 0 1 := by
  constructor
  · rfl
  · decide

/-- C7 (amended): for every page-fetch function with a finite cursor chain
and every cap m ≥ 1, paginate yields exactly the first min(m, total) items
upstream (reaching the cap mid-page stops immediately, yielding nothing
further from that page) and makes only the fetch calls needed to reach the
cap (callsFor m pages), fetching nothing past the page where the cap is
reached. -/
theorem c7_paginate_maxitems {fetchPage : Option String → PaginatedResponse α}
    {pages : List (List α)} (h : Chain fetchPage none pages) (m fuel : Nat)
    (hm : 1 ≤ m) (hfuel : pages.length ≤ fuel) :
    paginate fetchPage (some m) fuel = some ((pages.join).take m, callsFor m pages) ∧
    ((pages.join).take m).length = min m (pages.join).length := by
  constructor
  · have hl := paginateLoop_chain_some h m fuel 0 (by omega) hfuel
    simpa using hl
  · simp [List.length_take]

/-- C7 witness: maxItems = 4 over pages of sizes [3,3] yields exactly items
1..4 in 2 fetch calls: the third page is never fetched. -/
theorem c7_paginate_maxitems_witness :
    Chain c7Fetch none [[1, 2, 3], [4, 5, 6], []] ∧
    paginate c7Fetch (some 4) 3 = some ([1, 2, 3, 4], 2) := by
  have hch : Chain c7Fetch none [[1, 2, 3], [4, 5, 6], []] := by
    refine Chain.step none [[4, 5, 6], []] (by decide) ?_
    refine Chain.step (some "p2") [[]] (by decide) ?_
    exact Chain.last (some "p3") (by decide)
  exact ⟨hch, (c7_paginate_maxitems hch 4 3 (by decide) (by decide)).1⟩

/-- A failed attempt is the failure of its own error. -/
theorem exists_failure_of_isFailure {a : Attempt α} (h : isFailure a = true) :
    a = Attempt.failure (errOf a) := by
  cases a with
  | success v => simp [isFailure] at h
  | failure e => rfl

/-- When the rate-limit override does not fire, the chosen delay is the
exponential backoff value. -/
theorem chosenDelay_of_not_override (cfg : ResolvedConfig) (attempt nowMs : Nat)
    (e : SBError) (h : overrideApplies nowMs e = false) :
    chosenDelay cfg attempt nowMs e = cfg.retryDelay * 2 ^ attempt := by
  cases e with
  | rateLimit msg ra lim rem =>
    cases ra with
    | none => rfl
    | some v =>
      by_cases hv : v = 0
      · simp [chosenDelay, hv]
      · simp [overrideApplies, hv] at h
        simp [chosenDelay, hv, h]
        intro h1 h2
        exfalso
        have h3 := h h1
        omega
  | scrapeBadger m1 => rfl
  | authentication m1 => rfl
  | notFound m1 => rfl
  | validation m1 e1 => rfl
  | serverError m1 s1 => rfl
  | timeoutError m1 t1 => rfl
  | insufficientCredits m1 c1 => rfl
  | accountRestricted m1 r1 => rfl
  | transport m1 => rfl

/-- On a rate-limit error the engine's chosen delay is exactly the rule the
spec words: sleep the server delay when it lies strictly inside (0, 60 s),
else the exponential backoff value (also when the reset is absent or zero). -/
theorem chosenDelay_rateLimit_eq_claim (cfg : ResolvedConfig) (attempt nowMs : Nat)
    (msg : String) (reset lim rem : Option Nat) :
    chosenDelay cfg attempt nowMs (SBError.rateLimit msg reset lim rem) =
      claimRateLimitDelay cfg attempt nowMs reset := by
  cases reset with
  | none => rfl
  | some v =>
    by_cases hv : v = 0
    · subst hv
      have hcond : ¬ ((nowMs : Int) < 0 ∧ -(nowMs : Int) < 60000) := by omega
      simp [chosenDelay, claimRateLimitDelay, hcond]
    · simp [chosenDelay, claimRateLimitDelay, hv]

/-- One non-final, non-fatal failing step of the retry loop: attempt a
fails, the loop sleeps the chosen delay and recurses on attempt a + 1. -/
theorem runRetry_step (cfg : ResolvedConfig) (outcome : Nat → Attempt α)
    (now : Nat → Nat) (a r : Nat) (e : SBError)
    (he : outcome a = Attempt.failure e) (hnf : isFatal e = false) (hr : ¬ r = 0) :
    runRetry cfg outcome now a (r + 1) =
      ((runRetry cfg outcome now (a + 1) r).1,
        (runRetry cfg outcome now (a + 1) r).2.1 + 1,
        chosenDelay cfg a (now a) e :: (runRetry cfg outcome now (a + 1) r).2.2) := by
  simp only [runRetry, he, hnf, hr]
  simp

/-- The last attempt of the loop: attempt a fails non-fatally with no
remaining attempt, so its error surfaces with no further sleep. -/
theorem runRetry_last (cfg : ResolvedConfig) (outcome : Nat → Attempt α)
    (now : Nat → Nat) (a : Nat) (e : SBError)
    (he : outcome a = Attempt.failure e) (hnf : isFatal e = false) :
    runRetry cfg outcome now a 1 = (Except.error e, 1, []) := by
  simp [runRetry, he, hnf]

/-- When every attempt up to maxRetries fails non-fatally, the loop from
attempt a with rem attempts remaining runs to exhaustion: rem more attempts,
the last error surfacing, and one chosen sleep per non-final attempt. -/
theorem runRetry_all_fail (cfg : ResolvedConfig) (outcome : Nat → Attempt α)
    (now : Nat → Nat)
    (hfail : ∀ j, j ≤ cfg.maxRetries → isFailure (outcome j) = true ∧
      isFatal (errOf (outcome j)) = false) :
    ∀ rem a, a + rem = cfg.maxRetries + 1 → 1 ≤ rem →
      runRetry cfg outcome now a rem =
        (Except.error (errOf (outcome cfg.maxRetries)), rem,
          (List.range' a (rem - 1)).map
            (fun i => chosenDelay cfg i (now i) (errOf (outcome i)))) := by
  intro rem
  induction rem with
  | zero => intro a ha h1; omega
  | succ r ih =>
    intro a ha h1
    have hfa := hfail a (by omega)
    obtain ⟨e, he⟩ : ∃ e, outcome a = Attempt.failure e :=
      ⟨_, exists_failure_of_isFailure hfa.1⟩
    have hnf : isFatal e = false := by
      have h2 := hfa.2
      rw [he] at h2
      simpa [errOf] using h2
    by_cases hr : r = 0
    · subst hr
      have haeq : a = cfg.maxRetries := by omega
      subst haeq
      rw [runRetry_last cfg outcome now _ e he hnf]
      simp [he, errOf]
    · have hrec := ih (a + 1) (by omega) (by omega)
      have hr' : r = (r - 1) + 1 := by omega
      have hrange : List.range' a r = a :: List.range' (a + 1) (r - 1) := by
        conv_lhs => rw [hr']
        rw [List.range'_succ]
      rw [runRetry_step cfg outcome now a r e he hnf hr, hrec]
      simp only [Nat.add_sub_cancel]
      rw [hrange, List.map_cons]
      simp [he, errOf]

/-- C2 (amended): when every attempt fails with a transient (non-fatal)
error, the engine makes exactly maxRetries + 1 attempts and surfaces the
last attempt's error itself (no wrapper); and whenever no rate-limit
override fires, the sleeps between consecutive attempts are exactly
retryDelay * 2^attempt for attempt = 0 .. maxRetries - 1. -/
theorem c2_transient_retry (cfg : ResolvedConfig) (outcome : Nat → Attempt α)
    (now : Nat → Nat)
    (hfail : ∀ j, j ≤ cfg.maxRetries → isFailure (outcome j) = true ∧
      isFatal (errOf (outcome j)) = false) :
    (executeWithRetry cfg outcome now).1 = Except.error (errOf (outcome cfg.maxRetries)) ∧
    (executeWithRetry cfg outcome now).2.1 = cfg.maxRetries + 1 ∧
    ((∀ j, j < cfg.maxRetries → overrideApplies (now j) (errOf (outcome j)) = false) →
      (executeWithRetry cfg outcome now).2.2 =
        (List.range cfg.maxRetries).map (fun i => cfg.retryDelay * 2 ^ i)) := by
  have hrun := runRetry_all_fail cfg outcome now hfail (cfg.maxRetries + 1) 0
    (by omega) (by omega)
  rw [executeWithRetry, hrun]
  refine ⟨rfl, rfl, ?_⟩
  intro hov
  rw [List.range_eq_range']
  simp only [Nat.add_sub_cancel]
  apply List.map_congr_left
  intro i hi
  have hi' : i < cfg.maxRetries := by
    have := List.mem_range'_1.1 hi
    omega
  exact chosenDelay_of_not_override cfg i (now i) _ (hov i hi')

/-- C2 counterexample: an endpoint that always fails with the transient
RateLimit error carrying a reset 10 s out sleeps 10000 ms before the retry,
not retryDelay * 2^0 = 1000 ms, so the claimed d, 2d, 4d, ... schedule does
not hold for every transient-failing endpoint. -/
theorem c2_rate_limit_sleep_counterexample :
    isFatal (SBError.rateLimit "Rate limit exceeded." (some 10) none none) = false ∧
    executeWithRetry c2Cfg c2RateLimitOutcome (fun _ => 0) =
      (Except.error (SBError.rateLimit "Rate limit exceeded." (some 10) none none),
        2, [10000]) ∧
    (10000 : Nat) ≠ 1000 * 2 ^ 0 := by
  refine ⟨rfl, ?_, by decide⟩
  rfl

/-- C2 witness: an always-503 endpoint with retryDelay = 1000 and
maxRetries = 2 makes exactly 3 attempts, sleeps [1000, 2000], and surfaces
the ServerError itself. -/
theorem c2_transient_retry_witness :
    (executeWithRetry c2WitnessCfg c2ServerErrorOutcome (fun _ => 0)).1 =
      Except.error (SBError.serverError "Internal server error." 503) ∧
    (executeWithRetry c2WitnessCfg c2ServerErrorOutcome (fun _ => 0)).2.1 = 3 ∧
    (executeWithRetry c2WitnessCfg c2ServerErrorOutcome (fun _ => 0)).2.2 =
      (List.range 2).map (fun i => 1000 * 2 ^ i) := by
  have h := c2_transient_retry c2WitnessCfg c2ServerErrorOutcome (fun _ => 0)
    (fun j hj => ⟨rfl, rfl⟩)
  exact ⟨h.1, h.2.1, h.2.2 (fun j hj => rfl)⟩

/-- The i-th sleep of the loop from attempt a, when attempts a..a+i-1 fail
non-fatally and attempt a+i is a non-final non-fatal failure, is the chosen
delay for attempt a+i. -/
theorem runRetry_sleep_get (cfg : ResolvedConfig) (outcome : Nat → Attempt α)
    (now : Nat → Nat) :
    ∀ i a rem, a + rem = cfg.maxRetries + 1 →
      (∀ j, a ≤ j → j < a + i → isFailure (outcome j) = true ∧
        isFatal (errOf (outcome j)) = false) →
      isFailure (outcome (a + i)) = true →
      isFatal (errOf (outcome (a + i))) = false →
      a + i < cfg.maxRetries →
      ((runRetry cfg outcome now a rem).2.2).get? i =
        some (chosenDelay cfg (a + i) (now (a + i)) (errOf (outcome (a + i)))) := by
  intro i
  induction i with
  | zero =>
    intro a rem ha hprev hf hnf hlt
    obtain ⟨r, rfl⟩ : ∃ r, rem = r + 1 := ⟨rem - 1, by omega⟩
    have hr : ¬ (r = 0) := by omega
    simp only [Nat.add_zero] at hf hnf ⊢
    obtain ⟨e, he⟩ : ∃ e, outcome a = Attempt.failure e :=
      ⟨_, exists_failure_of_isFailure hf⟩
    have hnf' : isFatal e = false := by
      rw [he] at hnf
      simpa [errOf] using hnf
    simp [runRetry, he, hnf', hr, errOf]
  | succ i ih =>
    intro a rem ha hprev hf hnf hlt
    obtain ⟨r, rfl⟩ : ∃ r, rem = r + 1 := ⟨rem - 1, by omega⟩
    have hr : ¬ (r = 0) := by omega
    have hpa := hprev a (le_refl a) (by omega)
    obtain ⟨e, he⟩ : ∃ e, outcome a = Attempt.failure e :=
      ⟨_, exists_failure_of_isFailure hpa.1⟩
    have hnf' : isFatal e = false := by
      have h2 := hpa.2
      rw [he] at h2
      simpa [errOf] using h2
    have harith : a + (i + 1) = (a + 1) + i := by omega
    rw [harith] at hf hnf hlt ⊢
    have hrec := ih (a + 1) r (by omega)
      (fun j hj1 hj2 => hprev j (by omega) (by omega)) hf hnf hlt
    simp only [runRetry, he, hnf', hr, if_false]
    simpa [runRetry, he, hnf', hr] using hrec

/-- C3: at every reached non-final attempt that fails with a RateLimit
error, the sleep the engine performs is exactly the rule the claim words:
serverDelay = reset - now, slept when strictly inside (0, 60 s); the
exponential backoff value when the reset is absent, zero/negative, or at
least 60 s. -/
theorem c3_rate_limit_backoff (cfg : ResolvedConfig) (outcome : Nat → Attempt α)
    (now : Nat → Nat) (i : Nat) (msg : String) (reset lim rem : Option Nat)
    (hprev : ∀ j, j < i → isFailure (outcome j) = true ∧
      isFatal (errOf (outcome j)) = false)
    (hi : outcome i = Attempt.failure (SBError.rateLimit msg reset lim rem))
    (hlt : i < cfg.maxRetries) :
    ((executeWithRetry cfg outcome now).2.2).get? i =
      some (claimRateLimitDelay cfg i (now i) reset) := by
  have hget := runRetry_sleep_get cfg outcome now i 0 (cfg.maxRetries + 1)
    (by omega) (fun j hj1 hj2 => hprev j (by omega))
    (by simp [hi, isFailure]) (by simp [hi, errOf, isFatal]) (by omega)
  rw [executeWithRetry]
  simp only [Nat.zero_add] at hget
  rw [hget, hi]
  simp [errOf, chosenDelay_rateLimit_eq_claim]

/-- C3 witness: a first attempt rate-limited with reset 10 s after the epoch
at now = 0 sleeps the 10000 ms server delay, which lies in (0, 60 s). -/
theorem c3_rate_limit_backoff_witness :
    ((executeWithRetry defaultCfg c3Outcome (fun _ => 0)).2.2).get? 0 =
      some (claimRateLimitDelay defaultCfg 0 0 (some 10)) ∧
    claimRateLimitDelay defaultCfg 0 0 (some 10) = 10000 := by
  refine ⟨c3_rate_limit_backoff defaultCfg c3Outcome (fun _ => 0) 0
    "Rate limit exceeded." (some 10) none none
    (fun j hj => absurd hj (Nat.not_lt_zero j)) rfl (by decide), ?_⟩
  decide

/-- C4: for every HTTP status up to 599 and every parsed body,
handleResponse implements exactly the classification the claim states: 2xx
returns the parsed body; 401 Authentication; 402 InsufficientCredits with
credits_balance; 403 AccountRestricted with reason iff the extracted message
contains "restricted" case-insensitively, else Authentication; 404 NotFound;
422 Validation with the field map; 429 RateLimit with reset, limit and
remaining; 5xx ServerError with the status; any other non-2xx the generic
base error; message precedence detail, then message, then "Request failed". -/
theorem c4_classification (status : Nat) (body : ErrorBody) (h : status ≤ 599) :
    handleResponse status body = claimClassify status body := by
  unfold handleResponse claimClassify extractMessage
  split_ifs <;> first | rfl | omega

/-- C4 witness: a 403 with detail "Account restricted: policy violation"
classifies as AccountRestricted carrying the reason. -/
theorem c4_classification_witness :
    handleResponse 403 c4Body = claimClassify 403 c4Body ∧
    handleResponse 403 c4Body =
      Except.error (SBError.accountRestricted "Account restricted: policy violation"
        (some "policy violation")) := by
  refine ⟨c4_classification 403 c4Body (by decide), ?_⟩
  decide

end ScrapeBadger
